import Mathlib

/-!
Verification development for the conversation-orchestration pipeline of the
`ai-service` repository (`app/orchestrator/{policy,intent_detector,
entity_extractor,orchestrator}.py`).

The Python modules are shallowly embedded:

* Python regular expressions (the only library facility the pipeline uses)
  are embedded as an explicit AST (`Re`) together with a fuel-bounded
  backtracking matcher reproducing `re.search` / `re.finditer` semantics
  (leftmost match, ordered alternation, greedy quantifiers, capture groups,
  word boundaries, anchors, the IGNORECASE flag).
* Python dicts whose key sets are fixed in the source are embedded as
  structures with `Option` fields; dicts with dynamic keys (entity maps)
  as association lists.
* `datetime.date.today()` in the entity extractor is modelled by an explicit
  `Clock` argument carrying the three ISO strings the source derives from it
  (`today`, `today+1 day`, `today-1 day`); clock-independence of the
  extractor is then the statement that the result does not depend on this
  argument.

Modelling notes (deviations forced by the embedding, none load-bearing for
the claims): `str.lower`/`str.upper` are folded over ASCII plus the accented
letters appearing in the source patterns; `$` is end-of-input (no message
contains a trailing newline); `\w` is ASCII alphanumerics, underscore, and
the accented letters of the source patterns.
-/

namespace Rex

/-- Python character-class and literal tests are reused in several patterns. -/
def isDigitC (c : Char) : Bool := ('0' ≤ c && c ≤ '9')

def isSpaceC (c : Char) : Bool :=
  c = ' ' || c = '\t' || c = '\n' || c = '\r' || c = '\x0b' || c = '\x0c'

/-- Accented letters occurring in the source patterns (modelling Python
unicode word characters for this repository's vocabulary). -/
def accented : List Char :=
  ['à', 'â', 'ä', 'é', 'è', 'ê', 'ë', 'î', 'ï', 'ô', 'ö', 'ù', 'û', 'ü', 'ç',
   'À', 'Â', 'Ä', 'É', 'È', 'Ê', 'Ë', 'Î', 'Ï', 'Ô', 'Ö', 'Ù', 'Û', 'Ü', 'Ç']

/-- Python `\w`: letters, digits, underscore (ASCII plus the accented letters
used in this repository's patterns). -/
def isWordC (c : Char) : Bool :=
  ('a' ≤ c && c ≤ 'z') || ('A' ≤ c && c ≤ 'Z') || isDigitC c || c = '_' ||
    accented.contains c

/-- ASCII/accented lower-casing, modelling Python `str.lower()` on the
alphabet this repository uses. -/
def lowerC (c : Char) : Char :=
  if 'A' ≤ c && c ≤ 'Z' then Char.ofNat (c.toNat + 32)
  else if c = 'À' then 'à' else if c = 'Â' then 'â' else if c = 'Ä' then 'ä'
  else if c = 'É' then 'é' else if c = 'È' then 'è' else if c = 'Ê' then 'ê'
  else if c = 'Ë' then 'ë' else if c = 'Î' then 'î' else if c = 'Ï' then 'ï'
  else if c = 'Ô' then 'ô' else if c = 'Ö' then 'ö' else if c = 'Ù' then 'ù'
  else if c = 'Û' then 'û' else if c = 'Ü' then 'ü' else if c = 'Ç' then 'ç'
  else c

/-- ASCII/accented upper-casing, modelling Python `str.upper()`. -/
def upperC (c : Char) : Char :=
  if 'a' ≤ c && c ≤ 'z' then Char.ofNat (c.toNat - 32)
  else if c = 'à' then 'À' else if c = 'â' then 'Â' else if c = 'ä' then 'Ä'
  else if c = 'é' then 'É' else if c = 'è' then 'È' else if c = 'ê' then 'Ê'
  else if c = 'ë' then 'Ë' else if c = 'î' then 'Î' else if c = 'ï' then 'Ï'
  else if c = 'ô' then 'Ô' else if c = 'ö' then 'Ö' else if c = 'ù' then 'Ù'
  else if c = 'û' then 'Û' else if c = 'ü' then 'Ü' else if c = 'ç' then 'Ç'
  else c

def lowerS (s : List Char) : List Char := s.map lowerC

def upperS (s : List Char) : List Char := s.map upperC

/-- Python `str.strip()` (whitespace at both ends). -/
def stripS (s : List Char) : List Char :=
  ((s.dropWhile isSpaceC).reverse.dropWhile isSpaceC).reverse

/-- Python `str.split()` with no argument: split on whitespace runs,
dropping empty fields. -/
def splitWs (s : List Char) : List (List Char) :=
  let rec go : List Char → List Char → List (List Char)
    | [], acc => if acc.isEmpty then [] else [acc.reverse]
    | c :: t, acc =>
      if isSpaceC c then
        if acc.isEmpty then go t [] else acc.reverse :: go t []
      else go t (c :: acc)
  go s []

/-- Regular-expression AST covering the constructs used by the source
patterns.  `grp` is a numbered capturing group; `rep r lo hi` is the greedy
counted repetition `r{lo,hi}` (`hi = none` meaning unbounded). -/
inductive Re where
  | eps : Re
  | cls (p : Char → Bool) : Re
  | seq (a b : Re) : Re
  | alt (a b : Re) : Re
  | rep (r : Re) (lo : Nat) (hi : Option Nat) : Re
  | grp (idx : Nat) (r : Re) : Re
  | wordB : Re
  | bol : Re
  | eol : Re

namespace Re

/-- Sequencing a list of regexes. -/
def cat : List Re → Re
  | [] => eps
  | [r] => r
  | r :: t => seq r (cat t)

/-- Ordered alternation of a list of regexes (Python tries left to right). -/
def alts : List Re → Re
  | [] => cls (fun _ => false)
  | [r] => r
  | r :: t => alt r (alts t)

/-- A literal string, matched case-insensitively when `ci` is true
(modelling `re.IGNORECASE`). -/
def lit (ci : Bool) (s : String) : Re :=
  cat (s.data.map (fun c => cls (fun d => if ci then lowerC d = lowerC c else d = c)))

/-- `.` (any character except newline). -/
def dot : Re := cls (fun c => c ≠ '\n')

/-- `.*` -/
def dotStar : Re := rep dot 0 none

/-- `r?` -/
def opt (r : Re) : Re := rep r 0 (some 1)

/-- `r+` -/
def plus (r : Re) : Re := rep r 1 none

/-- `r*` -/
def star (r : Re) : Re := rep r 0 none

/-- `\d` -/
def digit : Re := cls isDigitC

/-- `\s` -/
def space : Re := cls isSpaceC

end Re

/-- Captured groups: association list from group index to captured text
(innermost capture consed first; each source pattern captures a group at
most once per match). -/
def Caps := List (Nat × List Char)

/-- The backtracking matcher, in continuation-passing style.  `prev` is the
character just before the current position (`none` at the very start of the
input), needed for `\b` and `^`; `s` is the remaining input.  The
continuation receives the updated `prev`, the remaining input, and the
captures, and returns the suffix after the whole match together with the
captures.  `fuel` bounds the recursion; every recursive call decrements it,
and the wrappers below supply enough fuel for the patterns and inputs in
this development. -/
def mat : Nat → Re → Option Char → List Char → Caps →
    (Option Char → List Char → Caps → Option (List Char × Caps)) →
    Option (List Char × Caps)
  | 0, _, _, _, _, _ => none
  | fuel + 1, r, prev, s, caps, k =>
    match r with
    | .eps => k prev s caps
    | .cls p =>
      match s with
      | [] => none
      | c :: rest => if p c then k (some c) rest caps else none
    | .seq a b =>
      mat fuel a prev s caps (fun p2 s2 c2 => mat fuel b p2 s2 c2 k)
    | .alt a b =>
      (mat fuel a prev s caps k).orElse (fun _ => mat fuel b prev s caps k)
    | .rep r lo hi =>
      if lo ≠ 0 then
        mat fuel r prev s caps (fun p2 s2 c2 =>
          mat fuel (.rep r (lo - 1) (hi.map (· - 1))) p2 s2 c2 k)
      else
        match hi with
        | some 0 => k prev s caps
        | _ =>
          (mat fuel r prev s caps (fun p2 s2 c2 =>
            if s2.length < s.length then
              mat fuel (.rep r 0 (hi.map (· - 1))) p2 s2 c2 k
            else
              k p2 s2 c2)).orElse (fun _ => k prev s caps)
    | .grp i r =>
      mat fuel r prev s caps (fun p2 s2 c2 =>
        k p2 s2 ((i, s.take (s.length - s2.length)) :: c2))
    | .wordB =>
      let before := match prev with | none => false | some c => isWordC c
      let after := match s with | [] => false | c :: _ => isWordC c
      if before ≠ after then k prev s caps else none
    | .bol => if prev = none then k prev s caps else none
    | .eol => if s = [] then k prev s caps else none

/-- Fuel that is always sufficient for the source patterns on the inputs
considered here. -/
def fuelFor (s : List Char) : Nat := 4000 * (s.length + 2)

/-- One match attempt anchored at the current position. -/
def matchHere (r : Re) (prev : Option Char) (s : List Char) :
    Option (List Char × Caps) :=
  mat (fuelFor s) r prev s [] (fun _ s2 c2 => some (s2, c2))

/-- Successful-match data: the suffix of the input at the match start, the
suffix after the match, and the captures.  `group(0)` is recovered as the
difference of the first two. -/
structure MData where
  startSuffix : List Char
  rest : List Char
  caps : Caps

/-- `group(0)` of a match. -/
def MData.group0 (m : MData) : List Char :=
  m.startSuffix.take (m.startSuffix.length - m.rest.length)

/-- `match.group(i)` — `none` models Python `None` for a group that did not
participate in the match. -/
def MData.group (m : MData) (i : Nat) : Option (List Char) :=
  (m.caps.find? (fun p => p.1 = i)).map (·.2)

/-- `re.search`: leftmost match, scanning start positions left to right. -/
def searchAux (r : Re) : Option Char → List Char → Option MData
  | prev, s =>
    match matchHere r prev s with
    | some (rest, caps) => some ⟨s, rest, caps⟩
    | none =>
      match s with
      | [] => none
      | c :: t => searchAux r (some c) t

def search (r : Re) (s : List Char) : Option MData := searchAux r none s

/-- `bool(re.search(...))`. -/
def test (r : Re) (s : List Char) : Bool := (search r s).isSome

/-- `re.finditer`: non-overlapping matches left to right.  `iters` is a
termination bound (the input length suffices because every continuation
either consumes input or stops). -/
def finditerAux (r : Re) : Nat → Option Char → List Char → List MData
  | 0, _, _ => []
  | iters + 1, prev, s =>
    match searchAux r prev s with
    | none => []
    | some m =>
      let g0 := m.group0
      if g0.isEmpty then
        -- empty match: emit and advance one character (Python semantics);
        -- no source pattern can match empty, so this branch is inert.
        match m.rest with
        | [] => [m]
        | c :: t => m :: finditerAux r iters (some c) t
      else
        m :: finditerAux r iters (match g0.getLast? with
          | some c => some c
          | none => prev) m.rest

def finditer (r : Re) (s : List Char) : List MData :=
  finditerAux r (s.length + 1) none s

/-- `re.match` (anchored at the start of the string). -/
def matchStart (r : Re) (s : List Char) : Option MData :=
  match matchHere r none s with
  | some (rest, caps) => some ⟨s, rest, caps⟩
  | none => none

end Rex

/-! ## Embedding of `app/orchestrator/policy.py` -/

namespace Policy

/-- Values stored in the `metadata` dicts of policy results (strings,
booleans, and possibly-`None` strings). -/
inductive MetaVal where
  | s (v : String)
  | b (v : Bool)
  | optS (v : Option String)
deriving DecidableEq

/-- The request context consulted by `check_access`
(`context.get("user_role"/"user_id"/"auth_header"/"carrier_id")`). -/
structure Ctx where
  user_role : Option String := none
  user_id : Option String := none
  auth_header : Option String := none
  carrier_id : Option String := none
deriving DecidableEq

/-- Entity maps as consumed by the policy (string-valued association list;
`entities.get(k)` is `lookup`). -/
def Entities := List (String × String)

def Entities.get (e : Entities) (k : String) : Option String :=
  (List.find? (fun p => p.1 = k) e).map (·.2)

/-- Python truthiness of an optional string (`None` and `""` are falsy). -/
def pyTruthy : Option String → Bool
  | none => false
  | some s => s ≠ ""

def pyUpper (s : String) : String := String.mk (Rex.upperS s.data)

def pyStrip (s : String) : String := String.mk (Rex.stripS s.data)

/-- `ROLE_PERMISSIONS` (policy.py): sets embedded as lists in source order;
only membership is consulted. -/
def ROLE_PERMISSIONS : String → Option (List String)
  | "ADMIN" => some
      ["booking_status", "slot_availability", "slot_recommendation",
       "passage_history", "traffic_forecast", "anomaly_detection",
       "carrier_score", "driver_noshow_risk", "blockchain_audit",
       "help", "smalltalk"]
  | "OPERATOR" => some
      ["booking_status", "slot_availability", "slot_recommendation",
       "passage_history", "traffic_forecast", "anomaly_detection",
       "carrier_score", "driver_noshow_risk", "blockchain_audit",
       "help", "smalltalk"]
  | "CARRIER" => some
      ["booking_status", "slot_availability", "slot_recommendation",
       "passage_history", "carrier_score", "help", "smalltalk"]
  | "UNAUTHENTICATED" => some
      ["slot_availability", "help", "smalltalk"]
  | _ => none

/-- `REQUIRE_AUTH` (policy.py). -/
def REQUIRE_AUTH : List String :=
  ["booking_status", "carrier_score", "slot_recommendation",
   "driver_noshow_risk", "passage_history", "traffic_forecast",
   "anomaly_detection", "blockchain_audit"]

/-- `REQUIRE_OWNERSHIP` (policy.py). -/
def REQUIRE_OWNERSHIP : List String :=
  ["booking_status", "carrier_score", "passage_history"]

/-- `PolicyResult` dataclass. -/
structure PolicyResult where
  allowed : Bool
  status_code : Nat
  reason : String
  required_role : Option String
  safe_to_proceed : Bool
  needs_backend_authorization : Bool
  metadata : List (String × MetaVal)
deriving DecidableEq

/-- Result dict of `_check_ownership` (its keys are fixed across all
branches of the source; `get("needs_backend_authorization", True)` and
`get("metadata", {})` therefore always find the key). -/
structure OwnershipResult where
  allowed : Bool
  reason : String
  needs_backend_authorization : Bool
  metadata : List (String × MetaVal)
deriving DecidableEq

/-- `_check_ownership(intent, context, entities)` — ownership micro-check
for the CARRIER role. -/
def check_ownership (intent : String) (ctx : Ctx) (entities : Entities) :
    OwnershipResult :=
  if intent = "booking_status" then
    { allowed := true
      reason := "Ownership check deferred to backend"
      needs_backend_authorization := true
      metadata := [("deferred", .s "booking_ownership")] }
  else if intent = "carrier_score" then
    let requested := entities.get "carrier_id"
    if ¬ pyTruthy requested then
      { allowed := true
        reason := "Checking own carrier score"
        needs_backend_authorization := false
        metadata := [("implicit_ownership", .b true)] }
    else if pyTruthy ctx.carrier_id ∧ requested = ctx.carrier_id then
      { allowed := true
        reason := "Checking own carrier score"
        needs_backend_authorization := false
        metadata := [("verified_ownership", .b true)] }
    else
      { allowed := false
        reason := "Cannot access other carriers\x27 scores"
        needs_backend_authorization := false
        metadata := [("requested_carrier", .optS requested),
                     ("own_carrier", .optS ctx.carrier_id)] }
  else if intent = "passage_history" then
    { allowed := true
      reason := "Ownership check deferred to backend"
      needs_backend_authorization := true
      metadata := [("deferred", .s "passage_ownership")] }
  else
    { allowed := true
      reason := "Access granted"
      needs_backend_authorization := false
      metadata := [] }

/-- The normalized role:
`context.get("user_role", "UNAUTHENTICATED").upper().strip()`. -/
def roleOf (ctx : Ctx) : String :=
  pyStrip (pyUpper (ctx.user_role.getD "UNAUTHENTICATED"))

/-- The access grant returned at the end of `check_access`. -/
def grant (intent : String) (ctx : Ctx) : Bool × PolicyResult :=
  (true,
    { allowed := true, status_code := 200, reason := "Access granted"
      required_role := none, safe_to_proceed := true
      needs_backend_authorization := false
      metadata := [("intent", .s intent), ("user_role", .s (roleOf ctx))] })

/-- `check_access(intent, context, entities)` — returns
`(ok, policy_result)`. -/
def check_access (intent : String) (ctx : Ctx) (entities : Entities) :
    Bool × PolicyResult :=
  -- Special intents bypass policy
  if intent = "help" ∨ intent = "smalltalk" ∨ intent = "unknown" then
    (true,
      { allowed := true, status_code := 200, reason := "Public intent"
        required_role := none, safe_to_proceed := true
        needs_backend_authorization := false
        metadata := [("intent", .s intent)] })
  -- Check authentication requirement
  else if REQUIRE_AUTH.contains intent ∧ ¬ pyTruthy ctx.auth_header then
    (false,
      { allowed := false, status_code := 401
        reason := "Authentication required for this feature"
        required_role := some "authenticated", safe_to_proceed := false
        needs_backend_authorization := false
        metadata := [("intent", .s intent), ("reason", .s "missing_auth")] })
  -- Check role permissions
  else if ¬ ((ROLE_PERMISSIONS (roleOf ctx)).getD []).contains intent then
    (false,
      { allowed := false, status_code := 403
        reason := "Role \x27" ++ roleOf ctx ++
          "\x27 does not have permission for \x27" ++ intent ++ "\x27"
        required_role :=
          some (if intent = "driver_noshow_risk" ∨ intent = "anomaly_detection"
                then "ADMIN" else "OPERATOR")
        safe_to_proceed := false
        needs_backend_authorization := false
        metadata := [("intent", .s intent), ("user_role", .s (roleOf ctx)),
                     ("reason", .s "insufficient_role")] })
  -- Special handling for CARRIER role (ownership checks); on a passing
  -- (or skipped) ownership check the Python code falls through to the same
  -- final "Access granted" return.
  else if roleOf ctx = "CARRIER" ∧ REQUIRE_OWNERSHIP.contains intent then
    if ¬ (check_ownership intent ctx entities).allowed then
      (false,
        { allowed := false, status_code := 403
          reason := (check_ownership intent ctx entities).reason
          required_role := none, safe_to_proceed := false
          needs_backend_authorization :=
            (check_ownership intent ctx entities).needs_backend_authorization
          metadata := [("intent", .s intent), ("user_role", .s (roleOf ctx)),
                       ("reason", .s "ownership_check_failed")] ++
                      (check_ownership intent ctx entities).metadata })
    else grant intent ctx
  else grant intent ctx

end Policy

/-! ## Claims C1, C2, C4 (access policy) -/

/-- Helper for C4: when the ownership micro-check denies, its reason is the
fixed other-carriers message (the only denying branch of `_check_ownership`). -/
theorem Policy.check_ownership_denied_reason
    (intent : String) (ctx : Policy.Ctx) (entities : Policy.Entities)
    (h : (Policy.check_ownership intent ctx entities).allowed = false) :
    (Policy.check_ownership intent ctx entities).reason =
      "Cannot access other carriers\x27 scores" := by
  unfold Policy.check_ownership at h ⊢
  split_ifs at h ⊢
  all_goals simp_all
  split_ifs at h ⊢
  all_goals simp_all

/-- C2: for every intent in `REQUIRE_AUTH` and every context whose
`auth_header` is absent or empty (falsy), `check_access` returns
`allowed = false` with status 401 and the fixed authentication-required
result.  The outcome is independent of the role, so the 401 denial is
produced before — and takes precedence over — any 403 the role/intent
allow-set would yield. -/
theorem Policy.c2_missing_auth_yields_401_before_role_check
    (intent : String) (ctx : Policy.Ctx) (entities : Policy.Entities)
    (hIntent : intent ∈ Policy.REQUIRE_AUTH)
    (hAuth : Policy.pyTruthy ctx.auth_header = false) :
    Policy.check_access intent ctx entities =
      (false,
        { allowed := false, status_code := 401
          reason := "Authentication required for this feature"
          required_role := some "authenticated", safe_to_proceed := false
          needs_backend_authorization := false
          metadata := [("intent", .s intent), ("reason", .s "missing_auth")] }) := by
  have hmeta : ¬ (intent = "help" ∨ intent = "smalltalk" ∨ intent = "unknown") := by
    fin_cases hIntent <;> decide
  have hmem : Policy.REQUIRE_AUTH.contains intent = true := by
    fin_cases hIntent <;> decide
  unfold Policy.check_access
  rw [if_neg hmeta, if_pos ⟨hmem, by simp [hAuth]⟩]

/-- Witness for C2: `booking_status` requested with no auth header. -/
theorem Policy.c2_witness :
    Policy.check_access "booking_status" { user_role := some "CARRIER" } [] =
      (false,
        { allowed := false, status_code := 401
          reason := "Authentication required for this feature"
          required_role := some "authenticated", safe_to_proceed := false
          needs_backend_authorization := false
          metadata := [("intent", .s "booking_status"),
                       ("reason", .s "missing_auth")] }) :=
  Policy.c2_missing_auth_yields_401_before_role_check "booking_status"
    { user_role := some "CARRIER" } [] (by decide) (by decide)

/-- C4: whenever `check_access` denies (`allowed = false`), the result
carries a nonempty `reason` and a status code in `{401, 403}`. -/
theorem Policy.c4_denial_reason_nonempty_status_401_or_403
    (intent : String) (ctx : Policy.Ctx) (entities : Policy.Entities)
    (hDenied : (Policy.check_access intent ctx entities).2.allowed = false) :
    (Policy.check_access intent ctx entities).2.reason ≠ "" ∧
      ((Policy.check_access intent ctx entities).2.status_code = 401 ∨
       (Policy.check_access intent ctx entities).2.status_code = 403) := by
  have hrr : ∀ u i : String,
      ("Role \x27" ++ u ++ "\x27 does not have permission for \x27" ++ i ++ "\x27") ≠ "" := by
    intro u i h
    have h2 := congrArg String.length h
    simp [String.length_append] at h2
    exact absurd h2.1.1.1.1 (by decide)
  unfold Policy.check_access at hDenied ⊢
  split_ifs at hDenied ⊢
  all_goals first
    | exact ⟨by show ("Authentication required for this feature" : String) ≠ ""; decide,
             Or.inl rfl⟩
    | exact ⟨hrr _ _, Or.inr rfl⟩
    | (refine ⟨?_, Or.inr rfl⟩
       show (Policy.check_ownership intent ctx entities).reason ≠ ""
       rw [Policy.check_ownership_denied_reason intent ctx entities (by simp_all)]
       decide)
    | simp [Policy.grant] at hDenied

/-- Witness for C4: CARRIER requesting `driver_noshow_risk` is denied. -/
theorem Policy.c4_witness :
    (Policy.check_access "driver_noshow_risk"
        { user_role := some "CARRIER", auth_header := some "Bearer x" } []).2.reason ≠ "" ∧
      ((Policy.check_access "driver_noshow_risk"
          { user_role := some "CARRIER", auth_header := some "Bearer x" } []).2.status_code = 401 ∨
       (Policy.check_access "driver_noshow_risk"
          { user_role := some "CARRIER", auth_header := some "Bearer x" } []).2.status_code = 403) :=
  Policy.c4_denial_reason_nonempty_status_401_or_403 "driver_noshow_risk"
    { user_role := some "CARRIER", auth_header := some "Bearer x" } [] (by decide)

/-- The C1 failing input: an authenticated CARRIER whose context carries no
ownership information that would let the check resolve locally. -/
def Policy.carrierCtx : Policy.Ctx :=
  { user_role := some "CARRIER", auth_header := some "Bearer token" }

/-- C1 (code bug): for CARRIER with the ownership-sensitive intents
`booking_status` and `passage_history` (ownership not resolvable locally),
`_check_ownership` itself produces the deferral flag
`needs_backend_authorization = true`, but `check_access` drops it on the
allow path: the final grant carries `needs_backend_authorization = false`,
contradicting the spec and the helper's own documented contract. -/
theorem Policy.c1_ownership_deferral_flag_dropped :
    (Policy.check_ownership "booking_status" Policy.carrierCtx []).allowed = true ∧
    (Policy.check_ownership "booking_status" Policy.carrierCtx []).needs_backend_authorization = true ∧
    (Policy.check_access "booking_status" Policy.carrierCtx []).2.allowed = true ∧
    (Policy.check_access "booking_status" Policy.carrierCtx []).2.needs_backend_authorization = false ∧
    (Policy.check_ownership "passage_history" Policy.carrierCtx []).needs_backend_authorization = true ∧
    (Policy.check_access "passage_history" Policy.carrierCtx []).2.needs_backend_authorization = false := by
  decide

/-! ## Embedding of `app/orchestrator/intent_detector.py` -/

namespace IntentDet

open Rex Rex.Re

/-- Rule confidences are exact decimal floats in the source, only ever
compared, maximised, and tested for equality; they are embedded
order-isomorphically as naturals in hundredths (`0.95` ↦ `95`, `0.5` ↦ `50`). -/
def Conf := Nat

/-- A word alternation in a capturing group, matched case-insensitively. -/
def wgrp (i : Nat) (ws : List String) : Re := grp i (alts (ws.map (lit true)))

/-- `[-\s]` -/
def dashSpace : Re := cls (fun c => c = '-' || isSpaceC c)

/-- `([\s\!]|$)` and `([\s\!\.]|$)` suffixes of the anchored patterns. -/
def endPunct (i : Nat) (extra : List Char) : Re :=
  grp i (alt (cls (fun c => isSpaceC c || c = '!' || extra.contains c)) eol)

/-- `INTENT_PATTERNS["help"]`. -/
def helpPats : List (Re × String × Nat) :=
  [(cat [wordB, wgrp 1 ["help", "assist", "what can", "how to", "guide",
      "aide", "comment"], wordB], "help_keyword", 95),
   (cat [bol, wgrp 1 ["hi", "hello", "hey", "bonjour", "salam", "salut"],
      endPunct 2 []], "greeting", 95),
   (cat [wordB, grp 1 (alts
      [cat [lit true "what ", grp 2 (alts [lit true "can", lit true "do"]),
        lit true " you"],
       cat [lit true "qu", cls (fun c => c = '\x27'), lit true "est-ce que tu"],
       lit true "que peux-tu"]), wordB], "capability_query", 90)]

/-- `INTENT_PATTERNS["blockchain_audit"]`. -/
def blockchainPats : List (Re × String × Nat) :=
  [(cat [wordB, wgrp 1 ["blockchain", "proof", "verify", "audit", "trace",
      "prouv", "vérif"], wordB, dotStar, wordB,
      wgrp 2 ["booking", "reservation", "ref", "transaction"], wordB],
    "blockchain_booking", 90),
   (cat [wordB, wgrp 1 ["prove", "verify", "audit", "trace", "prouv", "vérif"],
      wordB], "audit_keyword", 85)]

/-- `INTENT_PATTERNS["anomaly_detection"]`. -/
def anomalyPats : List (Re × String × Nat) :=
  [(cat [wordB, wgrp 1 ["anomaly", "anomalies", "unusual", "suspicious",
      "suspect", "anormal", "inhabituel"], wordB], "anomaly_keyword", 92),
   (cat [wordB, wgrp 1 ["no-show", "delay", "retard", "absence"], dotStar,
      wordB, wgrp 2 ["recurrent", "frequent", "récurrent", "fréquent"], wordB],
    "recurrent_issue", 90),
   (cat [wordB, wgrp 1 ["detect", "find", "show", "détecter", "trouver",
      "afficher"], dotStar, wordB, wgrp 2 ["anomaly", "anomalies", "issue",
      "problème"], wordB], "detect_anomaly", 88)]

/-- `INTENT_PATTERNS["carrier_score"]`. -/
def carrierScorePats : List (Re × String × Nat) :=
  [(cat [wordB, wgrp 1 ["carrier", "driver", "company", "transporteur",
      "chauffeur", "société"], dotStar, wordB, wgrp 2 ["score", "rating",
      "reliability", "note", "fiabilité", "performance"], wordB],
    "carrier_score_explicit", 95),
   (cat [wordB, wgrp 1 ["score", "rating", "note", "fiabilité"], dotStar,
      wordB, wgrp 2 ["carrier", "driver", "transporteur", "chauffeur"], wordB],
    "score_carrier_reversed", 95),
   (cat [wordB, wgrp 1 ["how reliable", "quelle fiabilité", "performance of",
      "performance de"], wordB], "reliability_query", 88),
   (cat [wordB, wgrp 1 ["rate", "noter", "évaluer"], dotStar, wordB,
      wgrp 2 ["carrier", "transporteur"], wordB], "rate_carrier", 85)]

/-- `INTENT_PATTERNS["driver_noshow_risk"]`. -/
def noshowPats : List (Re × String × Nat) :=
  [(cat [wordB, wgrp 1 ["no-show", "noshow"], dotStar, wordB,
      wgrp 2 ["risk", "prediction", "probabilité", "risque"], wordB],
    "noshow_risk_explicit", 92),
   (cat [wordB, wgrp 1 ["risk", "risque"], dotStar, wordB,
      wgrp 2 ["no-show", "noshow", "absence"], wordB],
    "risk_noshow_reversed", 92),
   (cat [wordB, wgrp 1 ["predict", "prédire", "prévoir"], dotStar, wordB,
      wgrp 2 ["no-show", "noshow", "absence"], wordB], "predict_noshow", 90)]

/-- `INTENT_PATTERNS["traffic_forecast"]`. -/
def trafficPats : List (Re × String × Nat) :=
  [(cat [wordB, wgrp 1 ["traffic", "congestion", "trafic"], dotStar, wordB,
      wgrp 2 ["forecast", "predict", "tomorrow", "future", "prévision",
        "demain", "futur"], wordB], "traffic_forecast_explicit", 90),
   (cat [wordB, wgrp 1 ["tomorrow", "next", "demain", "prochain"], dotStar,
      wordB, wgrp 2 ["traffic", "congestion", "busy", "trafic", "affluence"],
      wordB], "future_traffic", 88),
   (cat [wordB, wgrp 1 ["predict", "forecast", "prévoir", "prédire"], dotStar,
      wordB, wgrp 2 ["traffic", "load", "trafic", "charge"], wordB],
    "predict_traffic", 85)]

/-- `INTENT_PATTERNS["passage_history"]`. -/
def passagePats : List (Re × String × Nat) :=
  [(cat [wordB, wgrp 1 ["passage", "entry", "entries", "truck", "vehicle",
      "camion", "véhicule"], dotStar, wordB, wgrp 2 ["history", "yesterday",
      "past", "previous", "historique", "hier", "passé", "précédent"], wordB],
    "passage_history_explicit", 90),
   (cat [wordB, wgrp 1 ["show", "list", "get", "afficher", "lister"], dotStar,
      wordB, wgrp 2 ["passage", "entry", "truck", "camion"], wordB],
    "show_passage", 85),
   (cat [wordB, lit true "yesterday", dotStar, wordB,
      wgrp 1 ["passage", "truck", "entry", "camion"], wordB],
    "yesterday_passage", 88),
   (cat [wordB, wgrp 1 ["hier", "yesterday"], dotStar, wordB,
      wgrp 2 ["passage", "entrée", "camion"], wordB],
    "french_yesterday_passage", 88)]

/-- `INTENT_PATTERNS["slot_recommendation"]`. -/
def slotRecPats : List (Re × String × Nat) :=
  [(cat [wordB, wgrp 1 ["recommend", "suggest", "best", "optimal",
      "conseiller", "suggérer", "meilleur"], wordB, dotStar, wordB,
      wgrp 2 ["slot", "time", "créneau", "heure"], wordB],
    "recommend_slot_explicit", 92),
   (cat [wordB, wgrp 1 ["which", "what", "quel"], dotStar, wordB,
      wgrp 2 ["slot", "time", "créneau"], dotStar, wordB,
      wgrp 3 ["best", "better", "recommend", "meilleur", "conseillé"], wordB],
    "which_best_slot", 90),
   (cat [wordB, wgrp 1 ["alternative", "other", "autre"], dotStar, wordB,
      wgrp 2 ["slot", "time", "créneau"], wordB], "alternative_slot", 85)]

/-- `INTENT_PATTERNS["slot_availability"]`. -/
def slotAvailPats : List (Re × String × Nat) :=
  [(cat [wordB, wgrp 1 ["available", "availability", "free", "open",
      "disponible", "disponibilité", "libre", "ouvert"], dotStar, wordB,
      wgrp 2 ["slot", "time", "appointment", "créneau", "heure",
        "rendez-vous"], wordB], "slot_availability_explicit", 90),
   (cat [wordB, wgrp 1 ["slot", "time", "appointment", "créneau", "heure"],
      dotStar, wordB, wgrp 2 ["available", "free", "open", "disponible",
        "libre"], wordB], "slot_available_reversed", 90),
   (cat [wordB, wgrp 1 ["book", "reserve", "schedule", "réserver",
      "planifier"], dotStar, wordB, wgrp 2 ["slot", "time", "créneau",
      "heure"], wordB], "book_slot", 85),
   (cat [wordB, wgrp 1 ["check", "voir", "vérifier"], dotStar, wordB,
      wgrp 2 ["availability", "disponibilité"], wordB],
    "check_availability", 82)]

/-- `INTENT_PATTERNS["booking_status"]`. -/
def bookingPats : List (Re × String × Nat) :=
  [(cat [wordB, wgrp 1 ["status", "track", "where", "check", "find", "locate",
      "statut", "suivre", "où", "vérifier", "trouver", "localiser"], dotStar,
      wordB, wgrp 2 ["booking", "reservation", "ref", "reference",
        "réservation", "référence"], wordB], "status_booking_explicit", 90),
   (cat [wordB, wgrp 1 ["booking", "reservation", "ref", "reference",
      "réservation"], dotStar, wordB, wgrp 2 ["status", "track", "where",
      "check", "statut", "suivre", "où"], wordB],
    "booking_status_reversed", 90),
   (cat [wordB, wgrp 1 ["REF", "ref"], opt dashSpace, rep digit 3 none,
      wordB], "booking_ref_pattern", 85),
   (cat [wordB, wgrp 1 ["where is", "où est", "quand", "when"], dotStar,
      wordB, wgrp 2 ["booking", "reservation", "my", "ma", "mon"], wordB],
    "where_booking", 82)]

/-- `INTENT_PATTERNS["smalltalk"]`. -/
def smalltalkPats : List (Re × String × Nat) :=
  [(cat [bol, wgrp 1 ["ok", "okay", "d\x27accord", "merci", "thanks",
      "thank you", "oui", "yes", "non", "no"], endPunct 2 ['.']],
    "acknowledgment", 70),
   (cat [bol, wgrp 1 ["good", "bien", "bon"], endPunct 2 ['.']],
    "positive_short", 65),
   (cat [wordB, wgrp 1 ["how are you", "comment ça va", "ça va"], wordB],
    "how_are_you", 75)]

/-- `INTENT_PATTERNS` (intent_detector.py): dict in insertion order. -/
def INTENT_PATTERNS : List (String × List (Re × String × Nat)) :=
  [("help", helpPats),
   ("blockchain_audit", blockchainPats),
   ("anomaly_detection", anomalyPats),
   ("carrier_score", carrierScorePats),
   ("driver_noshow_risk", noshowPats),
   ("traffic_forecast", trafficPats),
   ("passage_history", passagePats),
   ("slot_recommendation", slotRecPats),
   ("slot_availability", slotAvailPats),
   ("booking_status", bookingPats),
   ("smalltalk", smalltalkPats)]

/-- Follow-up continuation-cue pattern of `detect_intent`. -/
def FOLLOW_UP_RE : Re :=
  cat [wordB, wgrp 1 ["and", "what about", "then", "also", "too", "same",
    "yesterday", "tomorrow", "today", "next", "previous", "et", "puis",
    "aussi", "même", "hier", "demain", "aujourd\x27hui"], wordB]

end IntentDet

namespace IntentDet

open Rex

/-- `IntentResult` dataclass; `entities_hint` is the hints dict as an
association list (`{}` is `[]`). -/
structure IntentResult where
  intent : String
  confidence : Nat
  reasoning : List String
  entities_hint : List (String × List String)
deriving DecidableEq

/-- A history message as consulted by `_get_last_intent`: its top-level
`intent` key and its `metadata.intent` key (either possibly absent). -/
structure HMsg where
  intent : Option String := none
  metadata_intent : Option String := none
deriving DecidableEq

/-- Python `a or b` on optional strings (`None` and `""` are falsy). -/
def pyOrStr (a b : Option String) : Option String :=
  if Policy.pyTruthy a then a else b

/-- `_get_last_intent(history)`: last truthy intent outside the generic set,
scanning from the most recent turn backward. -/
def get_last_intent (history : List HMsg) : Option String :=
  history.reverse.findSome? (fun msg =>
    match pyOrStr msg.intent msg.metadata_intent with
    | some i =>
      if i ≠ "" ∧ i ∉ ["unknown", "help", "smalltalk", "forbidden",
          "not_implemented"] then some i else none
    | none => none)

/-- `_get_entity_hints(intent)`. -/
def get_entity_hints (intent : String) : List (String × List String) :=
  match intent with
  | "booking_status" => [("expected", ["booking_ref"]), ("optional", ["date"])]
  | "carrier_score" => [("expected", ["carrier_id"]), ("optional", [])]
  | "slot_availability" =>
      [("expected", ["terminal", "date"]), ("optional", ["gate"])]
  | "slot_recommendation" =>
      [("expected", ["terminal", "date"]),
       ("optional", ["gate", "carrier_id", "requested_time"])]
  | "driver_noshow_risk" =>
      [("expected", []),
       ("optional", ["carrier_id", "booking_ref", "booking_status"])]
  | "passage_history" =>
      [("expected", ["date"]), ("optional", ["terminal", "gate"])]
  | "traffic_forecast" => [("expected", ["date"]), ("optional", ["terminal"])]
  | "anomaly_detection" =>
      [("expected", []), ("optional", ["date", "terminal", "carrier_id"])]
  | "blockchain_audit" => [("expected", ["booking_ref"]), ("optional", [])]
  | _ => [("expected", []), ("optional", [])]

/-- One step of the inner pattern loop of `detect_intent`: collect the rule
name and raise the running max confidence when the pattern fires. -/
def matchStep (ml : List Char) (acc : List String × Nat)
    (p : Re × String × Nat) : List String × Nat :=
  if Rex.test p.1 ml then (acc.1 ++ [p.2.1], max acc.2 p.2.2) else acc

/-- The per-intent `(intent_reasons, intent_confidence)` pair. -/
def intentMatches (ml : List Char) (ps : List (Re × String × Nat)) :
    List String × Nat :=
  ps.foldl (matchStep ml) ([], 0)

/-- One step of the outer intent loop: append `(intent, confidence, reasons)`
when at least one rule of the intent fired. -/
def allStep (ml : List Char) (acc : List (String × Nat × List String))
    (ip : String × List (Re × String × Nat)) : List (String × Nat × List String) :=
  if (intentMatches ml ip.2).1.isEmpty then acc
  else acc ++ [(ip.1, (intentMatches ml ip.2).2, (intentMatches ml ip.2).1)]

/-- `all_matches` accumulated over `INTENT_PATTERNS`. -/
def allMatches (ml : List Char) : List (String × Nat × List String) :=
  INTENT_PATTERNS.foldl (allStep ml) []

/-- Stable insertion for the descending-by-confidence sort
(`all_matches.sort(key=..., reverse=True)`; Python sorts are stable, so an
earlier element precedes a later one of equal confidence). -/
def insertDesc (x : String × Nat × List String) :
    List (String × Nat × List String) → List (String × Nat × List String)
  | [] => [x]
  | y :: ys => if x.2.1 ≥ y.2.1 then x :: y :: ys else y :: insertDesc x ys

def sortByConfDesc (l : List (String × Nat × List String)) :
    List (String × Nat × List String) :=
  l.foldr insertDesc []

/-- The follow-up block of `detect_intent` (the spec's Follow-up Resolver):
`some r` exactly when the source's inner `return` fires. -/
def followUpResult (ml : List Char) (history : List HMsg) :
    Option IntentResult :=
  if history ≠ [] then
    -- is_short: message word count at most 4; has_kw: a continuation cue
    if (splitWs ml).length ≤ 4 ∨ Rex.test FOLLOW_UP_RE ml = true then
      match get_last_intent history with
      | some li =>
        if li ∉ ["unknown", "help", "smalltalk"] then
          some ⟨li, 70, ["follow_up_pattern", "last_intent:" ++ li],
            get_entity_hints li⟩
        else none
      | none => none
    else none
  else none

/-- `detect_intent(message, history)` (context is unused by the source). -/
def detect_intent (message : String) (history : List HMsg) : IntentResult :=
  if message.data = [] ∨ stripS message.data = [] then
    ⟨"unknown", 100, ["empty_message"], []⟩
  else
    match sortByConfDesc (allMatches (lowerS (stripS message.data))) with
    | (intent, confidence, reasons) :: _ =>
      ⟨intent, confidence, reasons, get_entity_hints intent⟩
    | [] =>
      match followUpResult (lowerS (stripS message.data)) history with
      | some r => r
      | none => ⟨"unknown", 50, ["no_pattern_matched"], []⟩

end IntentDet

/-! ## Claims C5, C7 (intent detection) -/

namespace IntentDet

open Rex

/-- Helper for C5: the inner pattern fold yields a positive confidence
whenever it collected at least one rule name, given positive declared
confidences. -/
theorem foldl_matchStep_pos (ml : List Char) :
    ∀ (ps : List (Re × String × Nat)), (∀ q ∈ ps, 0 < q.2.2) →
    ∀ (acc : List String × Nat), (acc.1 ≠ [] → 0 < acc.2) →
    ((ps.foldl (matchStep ml) acc).1 ≠ [] → 0 < (ps.foldl (matchStep ml) acc).2)
  | [], _, acc, hacc => by simpa using hacc
  | q :: t, hp, acc, hacc => by
    rw [List.foldl_cons]
    exact foldl_matchStep_pos ml t (fun r hr => hp r (List.mem_cons_of_mem _ hr)) _
      (by
        unfold matchStep
        split_ifs with ht
        · intro _
          exact lt_of_lt_of_le (hp q (List.mem_cons_self _ _)) (le_max_right _ _)
        · exact hacc)

/-- Helper for C5: every entry of `all_matches` carries a positive
confidence. -/
theorem foldl_allStep_pos (ml : List Char) :
    ∀ (table : List (String × List (Re × String × Nat))),
      (∀ ip ∈ table, ∀ q ∈ ip.2, 0 < q.2.2) →
    ∀ (acc : List (String × Nat × List String)), (∀ e ∈ acc, 0 < e.2.1) →
    ∀ e ∈ table.foldl (allStep ml) acc, 0 < e.2.1
  | [], _, acc, hacc => by simpa using hacc
  | ip :: t, hp, acc, hacc => by
    rw [List.foldl_cons]
    refine foldl_allStep_pos ml t (fun r hr => hp r (List.mem_cons_of_mem _ hr)) _ ?_
    intro e he
    unfold allStep at he
    split_ifs at he with hemp
    · exact hacc e he
    · rcases List.mem_append.1 he with h1 | h2
      · exact hacc e h1
      · have he2 : e = (ip.1, (intentMatches ml ip.2).2, (intentMatches ml ip.2).1) := by
          simpa using h2
        subst he2
        exact foldl_matchStep_pos ml ip.2 (hp ip (List.mem_cons_self _ _)) ([], 0)
          (by simp) (by simpa using hemp)

/-- Helper for C5: stable descending insertion only permutes elements. -/
theorem mem_insertDesc :
    ∀ (a x : String × Nat × List String) (l : List (String × Nat × List String)),
      x ∈ insertDesc a l → x = a ∨ x ∈ l
  | a, x, [], h => by
    simp [insertDesc] at h
    exact Or.inl h
  | a, x, y :: ys, h => by
    simp only [insertDesc] at h
    split_ifs at h
    · rcases List.mem_cons.1 h with h1 | h2
      · exact Or.inl h1
      · exact Or.inr h2
    · rcases List.mem_cons.1 h with h1 | h2
      · exact Or.inr (List.mem_cons.2 (Or.inl h1))
      · rcases mem_insertDesc a x ys h2 with h3 | h4
        · exact Or.inl h3
        · exact Or.inr (List.mem_cons.2 (Or.inr h4))

/-- Helper for C5: the sorted match list draws from the unsorted one. -/
theorem mem_sortByConfDesc :
    ∀ (l : List (String × Nat × List String)) (x : String × Nat × List String),
      x ∈ sortByConfDesc l → x ∈ l
  | [], x, h => by simp [sortByConfDesc] at h
  | a :: t, x, h => by
    have hs : sortByConfDesc (a :: t) = insertDesc a (sortByConfDesc t) := rfl
    rw [hs] at h
    rcases mem_insertDesc a x _ h with h1 | h2
    · exact h1 ▸ List.mem_cons_self _ _
    · exact List.mem_cons_of_mem _ (mem_sortByConfDesc t x h2)

/-- Helper for C5: a successful follow-up carry-over always has confidence
exactly 0.70. -/
theorem followUpResult_conf (ml : List Char) (history : List HMsg)
    (r : IntentResult) (h : followUpResult ml history = some r) :
    r.confidence = 70 := by
  unfold followUpResult at h
  split_ifs at h
  split at h
  · split_ifs at h
    cases h
    rfl
  · exact absurd h (by simp)

/-- Helper for C5: every declared rule confidence is positive. -/
theorem intent_pattern_confidences_pos :
    ∀ ip ∈ INTENT_PATTERNS, ∀ q ∈ ip.2, 0 < q.2.2 := by decide

/-- Helper for C5: `detect_intent` never returns confidence 0. -/
theorem detect_intent_confidence_pos (message : String) (history : List HMsg) :
    0 < (detect_intent message history).confidence := by
  unfold detect_intent
  split_ifs with h0
  · norm_num
  · split
    next intent confidence reasons rest heq =>
      have hmem : (intent, confidence, reasons) ∈
          sortByConfDesc (allMatches (lowerS (stripS message.data))) := by
        rw [heq]
        exact List.mem_cons_self _ _
      have hpos := foldl_allStep_pos (lowerS (stripS message.data))
        INTENT_PATTERNS intent_pattern_confidences_pos [] (by simp) _
        (mem_sortByConfDesc _ _ hmem)
      simpa using hpos
    next heq =>
      split
      next r hr =>
        have := followUpResult_conf _ _ _ hr
        rw [this]
        norm_num
      next => norm_num

end IntentDet
namespace IntentDet

open Rex

/-- Helper: on a non-blank message with no pattern match in any tier,
`detect_intent` is the follow-up result, defaulting to the
no-pattern-matched outcome. -/
theorem detect_intent_no_match (message : String) (history : List HMsg)
    (hne : stripS message.data ≠ [])
    (hnm : sortByConfDesc (allMatches (lowerS (stripS message.data))) = []) :
    detect_intent message history =
      (followUpResult (lowerS (stripS message.data)) history).getD
        ⟨"unknown", 50, ["no_pattern_matched"], []⟩ := by
  unfold detect_intent
  rw [if_neg ?hcond]
  case hcond =>
    rintro (h1 | h2)
    · exact hne (by rw [h1]; rfl)
    · exact hne h2
  rw [hnm]
  cases hfu : followUpResult (lowerS (stripS message.data)) history with
  | none => rfl
  | some r => rfl

end IntentDet

/-- C5 counterexample: the empty message matches no intent pattern in any
tier and triggers no follow-up, yet `detect_intent` returns confidence 1.0
(100 in hundredths), not 0.5 (50): the empty-message guard fires first. -/
theorem IntentDet.c5_counterexample :
    IntentDet.allMatches (Rex.lowerS (Rex.stripS "".data)) = [] ∧
    IntentDet.followUpResult (Rex.lowerS (Rex.stripS "".data)) [] = none ∧
    IntentDet.detect_intent "" [] =
      ⟨"unknown", 100, ["empty_message"], []⟩ ∧
    (IntentDet.detect_intent "" []).confidence ≠ 50 := by decide

/-- C5 (amended): for every message that is non-blank after stripping, if no
intent pattern in any tier matches and the follow-up resolver does not
apply, `detect_intent` returns `unknown` with confidence exactly 0.5 (50 in
hundredths); and for every input whatsoever it never returns confidence 0.
(The amendment excludes blank messages, where the source returns confidence
1.0 instead — see the counterexample.) -/
theorem IntentDet.c5_no_match_unknown_half_never_zero
    (message : String) (history : List IntentDet.HMsg)
    (hne : Rex.stripS message.data ≠ [])
    (hnm : IntentDet.allMatches (Rex.lowerS (Rex.stripS message.data)) = [])
    (hfu : IntentDet.followUpResult (Rex.lowerS (Rex.stripS message.data))
      history = none) :
    IntentDet.detect_intent message history =
      ⟨"unknown", 50, ["no_pattern_matched"], []⟩ ∧
    ∀ (m : String) (h : List IntentDet.HMsg),
      0 < (IntentDet.detect_intent m h).confidence := by
  refine ⟨?_, IntentDet.detect_intent_confidence_pos⟩
  rw [IntentDet.detect_intent_no_match message history hne
    (by rw [hnm]; rfl), hfu]
  rfl

/-- Witness for C5 at the no-match message `asdfghjkl` with empty history. -/
theorem IntentDet.c5_witness :
    IntentDet.detect_intent "asdfghjkl" [] =
      ⟨"unknown", 50, ["no_pattern_matched"], []⟩ ∧
    ∀ (m : String) (h : List IntentDet.HMsg),
      0 < (IntentDet.detect_intent m h).confidence :=
  IntentDet.c5_no_match_unknown_half_never_zero "asdfghjkl" []
    (by decide) (by decide) (by decide)

/-- C7: on the new message `and yesterday?` — which matches no direct intent
pattern, is at most 4 words, and carries a continuation cue — with a history
whose latest non-generic intent is `carrier_score`, `detect_intent` returns
`carrier_score` at confidence exactly 0.70 (70 in hundredths) with the
follow-up reasoning tag. -/
theorem IntentDet.c7_follow_up_carries_carrier_score
    (history : List IntentDet.HMsg)
    (h : IntentDet.get_last_intent history = some "carrier_score") :
    IntentDet.detect_intent "and yesterday?" history =
      ⟨"carrier_score", 70,
       ["follow_up_pattern", "last_intent:carrier_score"],
       [("expected", ["carrier_id"]), ("optional", [])]⟩ := by
  have hne : history ≠ [] := by
    intro he
    rw [he] at h
    simp [IntentDet.get_last_intent] at h
  have hf : IntentDet.followUpResult
      (Rex.lowerS (Rex.stripS "and yesterday?".data)) history =
      some ⟨"carrier_score", 70,
        ["follow_up_pattern", "last_intent:carrier_score"],
        [("expected", ["carrier_id"]), ("optional", [])]⟩ := by
    unfold IntentDet.followUpResult
    rw [if_pos hne, if_pos (Or.inl (by decide)), h]
    rfl
  rw [IntentDet.detect_intent_no_match "and yesterday?" history
    (by decide) (by decide), hf]
  rfl

/-- Witness for C7 at the concrete single-turn history carrying
`carrier_score`. -/
theorem IntentDet.c7_witness :
    IntentDet.detect_intent "and yesterday?" [⟨some "carrier_score", none⟩] =
      ⟨"carrier_score", 70,
       ["follow_up_pattern", "last_intent:carrier_score"],
       [("expected", ["carrier_id"]), ("optional", [])]⟩ :=
  IntentDet.c7_follow_up_carries_carrier_score
    [⟨some "carrier_score", none⟩] (by decide)

/-! ## Embedding of `app/orchestrator/entity_extractor.py` -/

namespace Ent

open Rex Rex.Re

/-- The wall clock as observed by `_extract_time`: the three ISO strings the
source computes from `datetime.date.today()` (`date.today().isoformat()`,
`(date.today() + timedelta(days=1)).isoformat()`,
`(date.today() - timedelta(days=1)).isoformat()`). -/
structure Clock where
  todayIso : String
  tomorrowIso : String
  yesterdayIso : String
deriving DecidableEq

/-- A Python entity value that is either a scalar string or a list
(`booking_ref` is a scalar when unique, a list otherwise). -/
inductive SV where
  | s (v : String) : SV
  | l (vs : List String) : SV
deriving DecidableEq

/-- The extracted entity dict: each key is present (`some` / `true`) exactly
when the source sets it; the `date_*` booleans are only ever set to `True`. -/
structure EntityBag where
  booking_ref : Option SV := none
  carrier_id : Option String := none
  terminal : Option String := none
  gate : Option String := none
  date_today : Bool := false
  date_tomorrow : Bool := false
  date_yesterday : Bool := false
  date : Option String := none
  requested_time : Option String := none
  plate : Option String := none
deriving DecidableEq

/-- The `date_*`/`date` sub-dict built by `_extract_date_signals` and handed
to `_extract_time`. -/
structure DateSignals where
  date_today : Bool := false
  date_tomorrow : Bool := false
  date_yesterday : Bool := false
  date : Option String := none
deriving DecidableEq

/-- A word alternation in a capturing group, matched case-insensitively. -/
def wgrp (i : Nat) (ws : List String) : Re := grp i (alts (ws.map (lit true)))

/-- `[-\s]` -/
def dashSpace : Re := cls (fun c => c = '-' || isSpaceC c)

/-- The dash-or-slash class of the explicit date patterns. -/
def slashDash : Re := cls (fun c => c = '-' || c = '/')

/-- `[A-Z]` under `re.IGNORECASE`. -/
def letterCI : Re := cls (fun c => ('A' ≤ c && c ≤ 'Z') || ('a' ≤ c && c ≤ 'z'))

/-- `[A-Z]` case-sensitive (the plate pattern is searched without flags). -/
def letterUC : Re := cls (fun c => 'A' ≤ c && c ≤ 'Z')

/-- `BOOKING_REF_PATTERNS`. -/
def BR1 : Re := cat [wordB, wgrp 1 ["REF", "ref", "Ref"], opt dashSpace,
  grp 2 (rep digit 3 none), wordB]

def BR2 : Re := cat [wordB, wgrp 1 ["BK", "bk", "BOOK", "book", "booking",
  "réservation"], opt dashSpace, grp 2 (rep digit 4 none), wordB]

def BR3 : Re := cat [wordB, wgrp 1 ["booking", "reference", "réservation",
  "référence"], plus space, grp 2 (rep digit 5 none), wordB]

/-- `CARRIER_ID_PATTERNS`. -/
def CARRIER1 : Re := cat [wordB, wgrp 1 ["carrier", "transporteur",
  "chauffeur", "driver", "company", "société", "entreprise"], plus space,
  opt (cat [lit true "id", plus space]), grp 2 (plus digit), wordB]

def CARRIER2 : Re := cat [wordB, lit true "ID", plus space,
  grp 1 (plus digit), wordB]

def CARRIER3 : Re := cat [wordB, wgrp 1 ["for", "rate", "score", "pour",
  "noter"], plus space, grp 2 (rep digit 2 none), wordB]

/-- `TERMINAL_PATTERNS`. -/
def TERMINAL1 : Re := cat [wordB, grp 1 (lit true "terminal"), plus space,
  grp 2 letterCI, wordB]

def TERMINAL2 : Re := cat [wordB, grp 1 (alt
  (cat [lit true "terminal", opt (lit true "e")])
  (cat [lit true "au", plus space, lit true "terminal"])), plus space,
  grp 2 letterCI, wordB]

/-- `GATE_PATTERNS`. -/
def GATE1 : Re := cat [wordB, grp 1 (lit true "gate"), plus space,
  grp 2 (cat [opt letterCI, plus digit]), wordB]

def GATE2 : Re := cat [wordB, grp 1 (lit true "porte"), plus space,
  grp 2 (plus digit), wordB]

def GATE3 : Re := cat [wordB, grp 1 (lit true "G"), grp 2 (plus digit), wordB]

/-- `DATE_PATTERNS` keyword groups. -/
def TODAY_RE : Re := cat [wordB, wgrp 1 ["today", "now", "current",
  "aujourd\x27hui", "maintenant"], wordB]

def TOMORROW_RE : Re := cat [wordB, wgrp 1 ["tomorrow", "next day", "demain",
  "lendemain"], wordB]

def YESTERDAY_RE : Re := cat [wordB, wgrp 1 ["yesterday", "last day",
  "hier"], wordB]

/-- `DATE_PATTERNS["date_explicit"]`. -/
def DATE_EXPL1 : Re := cat [wordB, grp 1 (cat [rep digit 4 (some 4),
  slashDash, rep digit 2 (some 2), slashDash, rep digit 2 (some 2)]), wordB]

def DATE_EXPL2 : Re := cat [wordB, grp 1 (cat [rep digit 2 (some 2),
  slashDash, rep digit 2 (some 2), slashDash, rep digit 4 (some 4)]), wordB]

/-- `TIME_PATTERNS`. -/
def TIME_P1 : Re := cat [wordB, grp 1 (rep digit 1 (some 2)), lit false ":",
  grp 2 (rep digit 2 (some 2)),
  opt (cat [lit false ":", grp 3 (rep digit 2 (some 2))]), wordB]

def TIME_P2 : Re := cat [wordB, lit true "at", plus space,
  grp 1 (rep digit 1 (some 2)), star space,
  grp 2 (alts [lit true "am", lit true "pm", lit true "h"]), wordB]

def TIME_P3 : Re := cat [wordB, lit true "à", plus space,
  grp 1 (rep digit 1 (some 2)), star space, lit true "h", wordB]

/-- `PLATE_PATTERNS` (searched without `re.IGNORECASE`). -/
def PLATE_RE : Re := cat [wordB, grp 1 (cat [rep letterUC 1 (some 3),
  opt dashSpace, rep digit 3 (some 4), opt dashSpace,
  rep letterUC 0 (some 3)]), wordB]

/-- `^\d{4}-\d{2}-\d{2}$` (used by `_normalize_date` via `re.match`). -/
def ND_FULL : Re := cat [bol, rep digit 4 (some 4), lit false "-",
  rep digit 2 (some 2), lit false "-", rep digit 2 (some 2), eol]

/-- The day/month/year anchored pattern of `_normalize_date` (two digits, a dash or slash, two digits, a dash or slash, four digits). -/
def ND_DMY : Re := cat [bol, grp 1 (rep digit 2 (some 2)), slashDash,
  grp 2 (rep digit 2 (some 2)), slashDash, grp 3 (rep digit 4 (some 4)), eol]

/-- `int()` on a regex-captured string: `some` exactly when the string is a
nonempty digit string (otherwise the source's `int` raises `ValueError`). -/
def intOpt (s : List Char) : Option Nat :=
  if s ≠ [] ∧ s.all isDigitC then
    some (s.foldl (fun acc c => 10 * acc + (c.toNat - 48)) 0)
  else none

/-- `f"{n:02d}"` for the validated values `n ≤ 99`. -/
def pad2 (n : Nat) : String :=
  String.mk [Char.ofNat (48 + n / 10), Char.ofNat (48 + n % 10)]

/-- `_normalize_date(date_str)`. -/
def normalize_date (s : List Char) : Option (List Char) :=
  if (Rex.matchStart ND_FULL s).isSome then some s
  else
    match Rex.matchStart ND_DMY s with
    | some m =>
      some (((m.group 3).getD []) ++ '-' :: ((m.group 2).getD []) ++
        '-' :: ((m.group 1).getD []))
    | none =>
      let s2 := s.map (fun c => if c = '/' then '-' else c)
      if (Rex.matchStart ND_FULL s2).isSome then some s2 else none

/-- `_extract_booking_refs(message)`: all three patterns' matches in order,
normalized and deduplicated (the `seen` set is exactly the accumulator). -/
def extract_booking_refs (message : String) : List String :=
  let step (acc : List String) (m : Rex.MData) : List String :=
    let pfx := String.mk (upperS ((m.group 1).getD []))
    let digits := String.mk ((m.group 2).getD [])
    let ref := if pfx = "REF" ∨ pfx = "BK" ∨ pfx = "BOOK" then pfx ++ digits
               else "REF" ++ digits
    if acc.contains ref then acc else acc ++ [ref]
  (Rex.finditer BR1 message.data ++ Rex.finditer BR2 message.data ++
    Rex.finditer BR3 message.data).foldl step []

/-- One attempt of `_extract_carrier_id`: pick group 2 (or group 1 for the
single-group pattern), validate digits and length. -/
def carrierFrom (numGroups : Nat) (m : Rex.MData) : Option String :=
  let cid := if numGroups ≥ 2 then (m.group 2).getD [] else (m.group 1).getD []
  if cid ≠ [] ∧ cid.all isDigitC ∧ 1 ≤ cid.length ∧ cid.length ≤ 10 then
    some (String.mk cid)
  else none

/-- `_extract_carrier_id(message)`: first pattern whose match also passes
validation (a failed validation falls through to the next pattern). -/
def extract_carrier_id (message : String) : Option String :=
  (match Rex.search CARRIER1 message.data with
   | some m => carrierFrom 2 m
   | none => none).orElse (fun _ =>
  (match Rex.search CARRIER2 message.data with
   | some m => carrierFrom 1 m
   | none => none).orElse (fun _ =>
  match Rex.search CARRIER3 message.data with
  | some m => carrierFrom 2 m
  | none => none))

/-- One attempt of `_extract_terminal`. -/
def terminalFrom (m : Rex.MData) : Option String :=
  let t := upperS (stripS ((m.group 2).getD []))
  if t.length = 1 ∧ t.all (fun c => ('a' ≤ c && c ≤ 'z') ||
      ('A' ≤ c && c ≤ 'Z') || isDigitC c || accented.contains c) then
    some (String.mk t)
  else none

/-- `_extract_terminal(message)`. -/
def extract_terminal (message : String) : Option String :=
  (match Rex.search TERMINAL1 message.data with
   | some m => terminalFrom m
   | none => none).orElse (fun _ =>
  match Rex.search TERMINAL2 message.data with
  | some m => terminalFrom m
  | none => none)

/-- One attempt of `_extract_gate`: keep only digits
(`re.sub(r"[^\d]", "", ...)`) and normalize to `G<digits>`. -/
def gateFrom (m : Rex.MData) : Option String :=
  let digitsOnly := ((m.group 2).getD []).filter isDigitC
  if digitsOnly ≠ [] then some ("G" ++ String.mk digitsOnly) else none

/-- `_extract_gate(message)` (all three gate patterns declare two groups). -/
def extract_gate (message : String) : Option String :=
  (match Rex.search GATE1 message.data with
   | some m => gateFrom m
   | none => none).orElse (fun _ =>
  (match Rex.search GATE2 message.data with
   | some m => gateFrom m
   | none => none).orElse (fun _ =>
  match Rex.search GATE3 message.data with
  | some m => gateFrom m
  | none => none))

/-- The explicit-date part of `_extract_date_signals`: first pattern whose
match normalizes. -/
def explicitDate (message : String) : Option String :=
  (match Rex.search DATE_EXPL1 message.data with
   | some m => (normalize_date ((m.group 1).getD [])).map String.mk
   | none => none).orElse (fun _ =>
  match Rex.search DATE_EXPL2 message.data with
  | some m => (normalize_date ((m.group 1).getD [])).map String.mk
  | none => none)

/-- `_extract_date_signals(message)`. -/
def extract_date_signals (message : String) : DateSignals :=
  { date_today := Rex.test TODAY_RE message.data
    date_tomorrow := Rex.test TOMORROW_RE message.data
    date_yesterday := Rex.test YESTERDAY_RE message.data
    date := explicitDate message }

/-- The date-combination step of `_extract_time`: explicit date first, then
the relative-day booleans against the wall clock, else the bare time. -/
def combineDT (clock : Clock) (d : DateSignals) (time_str : String) : String :=
  match d.date with
  | some ds => ds ++ " " ++ time_str
  | none =>
    if d.date_today then clock.todayIso ++ " " ++ time_str
    else if d.date_tomorrow then clock.tomorrowIso ++ " " ++ time_str
    else if d.date_yesterday then clock.yesterdayIso ++ " " ++ time_str
    else time_str

/-- The first (`HH:MM`) branch of the `_extract_time` loop body on a match's
first two groups; `none` models every way the source iteration falls
through to the next pattern (`int` raising `ValueError`, or an
out-of-range hour/minute). -/
def timeBranch (clock : Clock) (d : DateSignals) (g1 g2 : List Char) :
    Option String :=
  match intOpt g1, intOpt g2 with
  | some h, some mi =>
    if h ≤ 23 ∧ mi ≤ 59 then
      some (combineDT clock d (pad2 h ++ ":" ++ pad2 mi ++ ":00"))
    else none
  | _, _ => none

/-- One `_extract_time` loop iteration for a two-group pattern.  Both groups
of `TIME_P1`/`TIME_P2` always participate, so the source takes its first
branch; for `TIME_P2` the second group is `am`/`pm`/`h`, so `int(minute)`
always raises and the iteration yields nothing — which `timeBranch`'s
`intOpt` reproduces. -/
def tryTime (clock : Clock) (d : DateSignals) (pat : Re) (message : String) :
    Option String :=
  match Rex.search pat message.data with
  | some m => timeBranch clock d ((m.group 1).getD []) ((m.group 2).getD [])
  | none => none

/-- `_extract_time(message, date_entities)`.  `TIME_P3` declares a single
group, so neither branch of the loop body applies to it and its iteration
extracts nothing. -/
def extract_time (clock : Clock) (message : String) (d : DateSignals) :
    Option String :=
  match tryTime clock d TIME_P1 message with
  | some r => some r
  | none =>
    match tryTime clock d TIME_P2 message with
    | some r => some r
    | none => none

/-- `_extract_plate(message)`. -/
def extract_plate (message : String) : Option String :=
  match Rex.search PLATE_RE message.data with
  | some m =>
    let plate := stripS ((m.group 1).getD [])
    let clean := plate.filter (fun c => ¬(c = '-' ∨ isSpaceC c))
    if (clean.any (fun c => 'A' ≤ c && c ≤ 'Z')) ∧ clean.any isDigitC then
      some (String.mk plate)
    else none
  | none => none

/-- `extract_entities(message)` with the wall clock explicit. -/
def extract_entities (clock : Clock) (message : String) : EntityBag :=
  if message.data = [] ∨ stripS message.data = [] then {}
  else
    { booking_ref :=
        match extract_booking_refs message with
        | [] => none
        | [r] => some (.s r)
        | rs => some (.l rs)
      carrier_id := extract_carrier_id message
      terminal := extract_terminal message
      gate := extract_gate message
      date_today := (extract_date_signals message).date_today
      date_tomorrow := (extract_date_signals message).date_tomorrow
      date_yesterday := (extract_date_signals message).date_yesterday
      date := (extract_date_signals message).date
      requested_time :=
        extract_time clock message (extract_date_signals message)
      plate := extract_plate message }

end Ent

/-! ## Claims C6, C9 (entity extraction) -/

namespace Ent

/-- Helper for C6: the date-combination step ignores the clock when no
relative-day boolean is set. -/
theorem combineDT_no_rel (c1 c2 : Clock) (d : DateSignals) (t : String)
    (h1 : d.date_today = false) (h2 : d.date_tomorrow = false)
    (h3 : d.date_yesterday = false) :
    combineDT c1 d t = combineDT c2 d t := by
  unfold combineDT
  rw [h1, h2, h3]
  cases hd : d.date <;> simp

/-- Helper for C6: a single time-branch evaluation ignores the clock when no
relative-day boolean is set. -/
theorem timeBranch_no_rel (c1 c2 : Clock) (d : DateSignals) (g1 g2 : List Char)
    (h1 : d.date_today = false) (h2 : d.date_tomorrow = false)
    (h3 : d.date_yesterday = false) :
    timeBranch c1 d g1 g2 = timeBranch c2 d g1 g2 := by
  unfold timeBranch
  cases intOpt g1 <;> cases intOpt g2 <;> simp
  split_ifs
  · exact congrArg some (combineDT_no_rel c1 c2 d _ h1 h2 h3)
  · rfl

/-- Helper for C6: one `_extract_time` pattern iteration ignores the clock
when no relative-day boolean is set. -/
theorem tryTime_no_rel (c1 c2 : Clock) (d : DateSignals) (pat : Rex.Re)
    (message : String)
    (h1 : d.date_today = false) (h2 : d.date_tomorrow = false)
    (h3 : d.date_yesterday = false) :
    tryTime c1 d pat message = tryTime c2 d pat message := by
  unfold tryTime
  cases Rex.search pat message.data with
  | none => rfl
  | some m => exact timeBranch_no_rel c1 c2 d _ _ h1 h2 h3

/-- Helper for C6: `_extract_time` ignores the clock when no relative-day
boolean is set. -/
theorem extract_time_no_rel (c1 c2 : Clock) (message : String)
    (d : DateSignals)
    (h1 : d.date_today = false) (h2 : d.date_tomorrow = false)
    (h3 : d.date_yesterday = false) :
    extract_time c1 message d = extract_time c2 message d := by
  unfold extract_time
  rw [tryTime_no_rel c1 c2 d TIME_P1 message h1 h2 h3,
      tryTime_no_rel c1 c2 d TIME_P2 message h1 h2 h3]

/-- A concrete wall clock and the same clock one day earlier, for the C6
counterexample. -/
def clockA : Clock := ⟨"2026-10-12", "2026-10-13", "2026-10-11"⟩

def clockB : Clock := ⟨"2026-10-11", "2026-10-12", "2026-10-10"⟩

end Ent

/-- C6 counterexample: on `tomorrow at 14:30` the extracted `requested_time`
resolves the relative-date keyword against `date.today()` inside the
extractor, so the same text extracted under two different wall clocks yields
different entity bags — `extract_entities` is not a pure function of the
text. -/
theorem Ent.c6_counterexample :
    (Ent.extract_entities Ent.clockA "tomorrow at 14:30").requested_time =
      some "2026-10-13 14:30:00" ∧
    (Ent.extract_entities Ent.clockB "tomorrow at 14:30").requested_time =
      some "2026-10-12 14:30:00" ∧
    Ent.extract_entities Ent.clockA "tomorrow at 14:30" ≠
      Ent.extract_entities Ent.clockB "tomorrow at 14:30" := by
  refine ⟨rfl, rfl, ?_⟩
  decide

/-- C6 (amended): `extract_entities` is a pure function of the text in every
field except `requested_time`: for any two wall clocks the extracted bags
agree on all other fields (in particular the relative-date keywords are
returned only as booleans), and they agree entirely — `requested_time`
included — whenever the text carries no relative-date keyword.  The
unamended claim fails because `_extract_time` resolves
today/tomorrow/yesterday to absolute dates via `date.today()` when a time is
present. -/
theorem Ent.c6_clock_independent_except_requested_time
    (message : String) (c1 c2 : Ent.Clock) :
    ((Ent.extract_entities c1 message).booking_ref =
        (Ent.extract_entities c2 message).booking_ref ∧
     (Ent.extract_entities c1 message).carrier_id =
        (Ent.extract_entities c2 message).carrier_id ∧
     (Ent.extract_entities c1 message).terminal =
        (Ent.extract_entities c2 message).terminal ∧
     (Ent.extract_entities c1 message).gate =
        (Ent.extract_entities c2 message).gate ∧
     (Ent.extract_entities c1 message).date_today =
        (Ent.extract_entities c2 message).date_today ∧
     (Ent.extract_entities c1 message).date_tomorrow =
        (Ent.extract_entities c2 message).date_tomorrow ∧
     (Ent.extract_entities c1 message).date_yesterday =
        (Ent.extract_entities c2 message).date_yesterday ∧
     (Ent.extract_entities c1 message).date =
        (Ent.extract_entities c2 message).date ∧
     (Ent.extract_entities c1 message).plate =
        (Ent.extract_entities c2 message).plate) ∧
    ((Ent.extract_date_signals message).date_today = false ∧
     (Ent.extract_date_signals message).date_tomorrow = false ∧
     (Ent.extract_date_signals message).date_yesterday = false →
      Ent.extract_entities c1 message = Ent.extract_entities c2 message) := by
  by_cases hb : message.data = [] ∨ Rex.stripS message.data = []
  · exact ⟨by simp [Ent.extract_entities, hb],
           fun _ => by simp [Ent.extract_entities, hb]⟩
  · constructor
    · simp [Ent.extract_entities, hb]
    · rintro ⟨h1, h2, h3⟩
      have ht := Ent.extract_time_no_rel c1 c2 message
        (Ent.extract_date_signals message) h1 h2 h3
      simp [Ent.extract_entities, hb, ht]

/-- Witness for C6 (amended) at a message with a time but no relative-date
keyword: both conjuncts apply, giving full equality of the two bags. -/
theorem Ent.c6_witness :
    Ent.extract_entities Ent.clockA "gate 5 at 10:00" =
      Ent.extract_entities Ent.clockB "gate 5 at 10:00" :=
  (Ent.c6_clock_independent_except_requested_time "gate 5 at 10:00"
    Ent.clockA Ent.clockB).2 ⟨by decide, by decide, by decide⟩

/-- C9: the three phrasings `porte 7`, `Gate 7` and `G7` all normalize to
the single canonical gate entity value `G7`, under any wall clock. -/
theorem Ent.c9_gate_normalization_round_trip (c : Ent.Clock) :
    (Ent.extract_entities c "porte 7").gate = some "G7" ∧
    (Ent.extract_entities c "Gate 7").gate = some "G7" ∧
    (Ent.extract_entities c "G7").gate = some "G7" :=
  ⟨rfl, rfl, rfl⟩

/-- Witness for C9 at the concrete clock `clockA`. -/
theorem Ent.c9_witness :
    (Ent.extract_entities Ent.clockA "porte 7").gate = some "G7" ∧
    (Ent.extract_entities Ent.clockA "Gate 7").gate = some "G7" ∧
    (Ent.extract_entities Ent.clockA "G7").gate = some "G7" :=
  Ent.c9_gate_normalization_round_trip Ent.clockA

/-! ## Embedding of `app/orchestrator/orchestrator.py` -/

namespace Orch

open Rex Rex.Re

/-- A word alternation in a capturing group, matched case-insensitively. -/
def wgrp (i : Nat) (ws : List String) : Re := grp i (alts (ws.map (lit true)))

/-- `ROLE_PERMISSIONS` (orchestrator.py — distinct from the policy module's
table).  Sets are embedded as their sorted element lists, so that
`sorted(ROLE_PERMISSIONS.get(role, set()))` is the list itself and
membership is list membership. -/
def ROLE_PERMISSIONS : String → Option (List String)
  | "ADMIN" => some
      ["anomaly_detection", "blockchain_audit", "booking_status",
       "carrier_score", "help", "passage_history", "slot_availability",
       "traffic_forecast"]
  | "OPERATOR" => some
      ["anomaly_detection", "blockchain_audit", "booking_status",
       "carrier_score", "help", "passage_history", "slot_availability"]
  | "CARRIER" => some
      ["booking_status", "help", "passage_history", "slot_availability"]
  | _ => none

/-- `INTENT_PATTERNS` (orchestrator.py): the priority-ordered simple rule
list wired into the live dispatcher. -/
def INTENT_PATTERNS : List (String × List Re) :=
  [("help",
    [cat [wordB, wgrp 1 ["help", "assist", "what can", "how to", "guide"],
       wordB],
     cat [bol, wgrp 1 ["hi", "hello", "hey", "bonjour", "salam"],
       grp 2 (alt space eol)]]),
   ("blockchain_audit",
    [cat [wordB, wgrp 1 ["blockchain", "proof", "verify", "audit", "trace"],
       wordB],
     cat [wordB, wgrp 1 ["prove", "verify"], wordB, dotStar, wordB,
       wgrp 2 ["booking", "transaction"], wordB]]),
   ("anomaly_detection",
    [cat [wordB, wgrp 1 ["anomaly", "anomalies", "unusual", "suspicious",
       "no-show", "delay"], wordB],
     cat [wordB, wgrp 1 ["detect", "find", "show"], wordB, dotStar, wordB,
       wgrp 2 ["anomaly", "anomalies", "issue"], wordB],
     cat [wordB, wgrp 1 ["recurrent", "frequent"], wordB, dotStar, wordB,
       wgrp 2 ["no-show", "delay", "problem"], wordB]]),
   ("carrier_score",
    [cat [wordB, wgrp 1 ["carrier", "driver", "company"], wordB, dotStar,
       wordB, wgrp 2 ["score", "rating", "reliability", "performance"],
       wordB],
     cat [wordB, wgrp 1 ["score", "rating", "reliability"], wordB, dotStar,
       wordB, wgrp 2 ["carrier", "driver"], wordB],
     cat [wordB, wgrp 1 ["how reliable", "performance of"], wordB]]),
   ("traffic_forecast",
    [cat [wordB, wgrp 1 ["traffic", "congestion"], wordB, dotStar, wordB,
       wgrp 2 ["forecast", "predict", "tomorrow", "future"], wordB],
     cat [wordB, wgrp 1 ["tomorrow", "next", "future"], wordB, dotStar,
       wordB, wgrp 2 ["traffic", "congestion", "busy"], wordB],
     cat [wordB, wgrp 1 ["predict", "forecast"], wordB, dotStar, wordB,
       wgrp 2 ["traffic", "load"], wordB]]),
   ("passage_history",
    [cat [wordB, wgrp 1 ["passage", "entry", "entries", "truck", "vehicle"],
       wordB, dotStar, wordB, wgrp 2 ["history", "yesterday", "past",
       "previous"], wordB],
     cat [wordB, wgrp 1 ["show", "list", "get"], wordB, dotStar, wordB,
       wgrp 2 ["passage", "entry", "truck"], wordB],
     cat [wordB, lit true "yesterday", dotStar, wordB,
       wgrp 1 ["passage", "truck", "entry"], wordB]]),
   ("slot_availability",
    [cat [wordB, wgrp 1 ["available", "availability", "free", "open"], wordB,
       dotStar, wordB, wgrp 2 ["slot", "time", "appointment"], wordB],
     cat [wordB, wgrp 1 ["slot", "time", "appointment"], wordB, dotStar,
       wordB, wgrp 2 ["available", "free", "open"], wordB],
     cat [wordB, wgrp 1 ["book", "reserve", "schedule"], wordB, dotStar,
       wordB, wgrp 2 ["slot", "time"], wordB]]),
   ("booking_status",
    [cat [wordB, wgrp 1 ["status", "track", "where", "check", "find",
       "locate"], wordB, dotStar, wordB, wgrp 2 ["booking", "reservation",
       "ref", "reference"], wordB],
     cat [wordB, wgrp 1 ["booking", "reservation", "ref", "reference"],
       wordB, dotStar, wordB, wgrp 2 ["status", "track", "where", "check"],
       wordB],
     cat [wordB, lit true "REF", plus digit, wordB]])]

/-- `FOLLOW_UP_KEYWORDS` (orchestrator.py). -/
def FOLLOW_UP_KEYWORDS : Re :=
  cat [wordB, wgrp 1 ["and", "what about", "then", "also", "too", "same",
    "yesterday", "tomorrow", "today", "next", "previous"], wordB]

/-- `ENTITY_PATTERNS` (orchestrator.py). -/
def EP_booking_ref : Re := cat [wordB, wgrp 1 ["REF", "ref", "Ref"],
  opt (cls (fun c => c = '-' || isSpaceC c)), grp 2 (rep digit 3 none), wordB]

def EP_plate : Re := cat [wordB, grp 1 (cat
  [rep (cls (fun c => ('A' ≤ c && c ≤ 'Z') || ('a' ≤ c && c ≤ 'z'))) 1 (some 3),
   opt (cls (fun c => c = '-' || isSpaceC c)), rep digit 3 (some 4),
   opt (cls (fun c => c = '-' || isSpaceC c)),
   rep (cls (fun c => ('A' ≤ c && c ≤ 'Z') || ('a' ≤ c && c ≤ 'z'))) 1 (some 3)]),
  wordB]

def EP_terminal : Re := cat [wordB, wgrp 1 ["Terminal", "terminal",
  "TERMINAL"], plus space, grp 2 (plus (cls (fun c =>
    ('A' ≤ c && c ≤ 'Z') || ('a' ≤ c && c ≤ 'z') || isDigitC c))), wordB]

def EP_gate : Re := cat [wordB, wgrp 1 ["Gate", "gate", "GATE"], plus space,
  grp 2 (plus (cls (fun c =>
    ('A' ≤ c && c ≤ 'Z') || ('a' ≤ c && c ≤ 'z') || isDigitC c))), wordB]

def EP_date_today : Re := cat [wordB, wgrp 1 ["today", "now", "current"],
  wordB]

def EP_date_tomorrow : Re := cat [wordB, wgrp 1 ["tomorrow", "next day"],
  wordB]

def EP_date_yesterday : Re := cat [wordB, wgrp 1 ["yesterday", "last day"],
  wordB]

/-- A value in the orchestrator's entity dict (string, list of strings, or
boolean). -/
inductive EVal where
  | s (v : String) : EVal
  | l (vs : List String) : EVal
  | b (v : Bool) : EVal
deriving DecidableEq

/-- `_get_last_intent(history)` (orchestrator.py): like the detector module's
but with `smalltalk` absent from the excluded set. -/
def get_last_intent (history : List IntentDet.HMsg) : Option String :=
  history.reverse.findSome? (fun msg =>
    match IntentDet.pyOrStr msg.intent msg.metadata_intent with
    | some i =>
      if i ≠ "" ∧ i ∉ ["unknown", "help", "forbidden", "not_implemented"]
      then some i else none
    | none => none)

/-- `_detect_intent(message, history)` (orchestrator.py): first
priority-ordered pattern that fires wins; otherwise a short message or a
continuation cue replays the last non-`unknown` history intent. -/
def detect_intent (message : String) (history : List IntentDet.HMsg) :
    String :=
  match INTENT_PATTERNS.findSome? (fun ip =>
    if ip.2.any (fun pat => Rex.test pat (lowerS message.data))
    then some ip.1 else none) with
  | some intent => intent
  | none =>
    if (splitWs message.data).length ≤ 4 ∨
        Rex.test FOLLOW_UP_KEYWORDS (lowerS message.data) = true then
      match get_last_intent history with
      | some li => if li ≠ "unknown" then li else "unknown"
      | none => "unknown"
    else "unknown"

/-- `_extract_entities(message)` (orchestrator.py): insertion-ordered dict
as an association list (`len(entities)` is its length). -/
def extract_entities (message : String) : List (String × EVal) :=
  let refs := (Rex.finditer EP_booking_ref message.data).map (fun m =>
    String.mk (upperS ((m.group 1).getD [])) ++
      String.mk ((m.group 2).getD []))
  (match refs with
   | [] => []
   | [r] => [("booking_ref", EVal.s r)]
   | rs => [("booking_ref", EVal.l rs)]) ++
  (match Rex.search EP_plate message.data with
   | some m => [("plate", EVal.s (String.mk (stripS ((m.group 1).getD []))))]
   | none => []) ++
  (match Rex.search EP_terminal message.data with
   | some m =>
     [("terminal", EVal.s (String.mk (upperS (stripS ((m.group 2).getD []))))),
      ("terminal_full", EVal.s (String.mk (stripS m.group0)))]
   | none => []) ++
  (match Rex.search EP_gate message.data with
   | some m =>
     [("gate", EVal.s (String.mk (upperS (stripS ((m.group 2).getD []))))),
      ("gate_full", EVal.s (String.mk (stripS m.group0)))]
   | none => []) ++
  (if Rex.test EP_date_today message.data then
    [("date_today", EVal.b true)] else []) ++
  (if Rex.test EP_date_tomorrow message.data then
    [("date_tomorrow", EVal.b true)] else []) ++
  (if Rex.test EP_date_yesterday message.data then
    [("date_yesterday", EVal.b true)] else [])

/-- `_rbac_check(intent, user_role)`. -/
def rbac_check (intent : String) (user_role : String) : Bool :=
  ((ROLE_PERMISSIONS user_role).getD []).contains intent

/-- The agent registry built by `_build_agent_registry`: every listed import
succeeds except `app.agents.passage_history_agent`, a module that does not
exist in the repository, so that entry is `None`. -/
def agent_registry : String → Option String
  | "booking_status" => some "BookingAgent"
  | "slot_availability" => some "SlotAgent"
  | "passage_history" => none
  | "traffic_forecast" => some "TrafficAgent"
  | "anomaly_detection" => some "AnomalyAgent"
  | "carrier_score" => some "CarrierScoreAgent"
  | "blockchain_audit" => some "BlockchainAuditAgent"
  | _ => none

end Orch

namespace Orch

open Rex

/-- The orchestrator-built `data` payloads, plus an opaque constructor for
whatever payload an agent returns. -/
inductive DataVal where
  | helpData (user_role : String) (available_features : List String) : DataVal
  | unknownData (suggestions : List String) : DataVal
  | forbidden (requested_intent : String) (user_role : String)
      (allowed_intents : List String) : DataVal
  | notImplemented (planned_intent : String)
      (entities : List (String × EVal)) (suggestion : String) : DataVal
  | agentError (error : String) : DataVal
  | agentErrorType (error_type : String) : DataVal
  | agentPayload (tag : String) : DataVal
deriving DecidableEq

/-- The `proofs` dict as stamped by the orchestrator.  (An agent-supplied
proofs dict may carry further keys; they are not modelled, since
`handle_message` overwrites exactly these two and no claim reads others.) -/
structure Proofs where
  trace_id : Option String := none
  decision_path : Option (List String) := none
deriving DecidableEq

/-- A response dict: each field is `some` exactly when the key is present
(`data` conflates an absent key with an explicit `None`, which no claim
distinguishes). -/
structure Response where
  message : Option String := none
  intent : Option String := none
  data : Option DataVal := none
  proofs : Option Proofs := none
deriving DecidableEq

/-- What an agent invocation returns when it does not raise. -/
inductive AgentRaw where
  | dict (d : Response) : AgentRaw
  | nonDict (str_of : String) : AgentRaw
deriving DecidableEq

/-- The observable behavior of one agent invocation inside
`_execute_agent`: instantiation may raise; the instance may lack an
`execute`/`handle`/`process` method; the call may raise `TypeError` under
both invocation styles, or raise some other exception; or it returns a
value. -/
inductive AgentBehavior where
  | initRaises (exName : String) : AgentBehavior
  | noMethod : AgentBehavior
  | callTypeErrorTwice : AgentBehavior
  | callRaises (exName : String) : AgentBehavior
  | returns (v : AgentRaw) : AgentBehavior
deriving DecidableEq

/-- `_execute_agent(...)`: the returned dict together with the decision-path
entries the call appends.  The enclosing `try` converts any raise into the
generic failure dict; a non-dict result is wrapped as
`{"message": str(result), "data": None}`. -/
def execute_agent (behavior : AgentBehavior) : Response × List String :=
  match behavior with
  | .initRaises ex =>
    ({ message := some "I encountered an error processing your request. Please try again."
       data := some (.agentErrorType ex) },
     ["agent_failed:" ++ ex])
  | .noMethod =>
    ({ message := some "Agent is not properly configured."
       data := some (.agentError "Agent has no execute/handle/process method") },
     ["agent_instantiated", "agent_no_method"])
  | .callTypeErrorTwice =>
    ({ message := some "Agent configuration error."
       data := some (.agentError "Agent method signature mismatch") },
     ["agent_instantiated", "agent_call_failed:TypeError"])
  | .callRaises ex =>
    ({ message := some "I encountered an error processing your request. Please try again."
       data := some (.agentErrorType ex) },
     ["agent_instantiated", "agent_failed:" ++ ex])
  | .returns (.nonDict s) =>
    ({ message := some s, data := none },
     ["agent_instantiated", "agent_executed"])
  | .returns (.dict d) =>
    (d, ["agent_instantiated", "agent_executed"])

/-- The `help_messages` table of `_handle_help`. -/
def help_messages : String → Option String
  | "booking_status" => some "Check the status of your bookings (e.g., \x27What\x27s the status of REF123?\x27)"
  | "slot_availability" => some "Find available time slots (e.g., \x27Is there availability tomorrow at Terminal A?\x27)"
  | "passage_history" => some "View past truck passages (e.g., \x27Show me yesterday\x27s entries\x27)"
  | "traffic_forecast" => some "Get traffic predictions (e.g., \x27What\x27s tomorrow\x27s traffic forecast?\x27)"
  | "anomaly_detection" => some "Detect unusual patterns (e.g., \x27Show me recurrent no-shows\x27)"
  | "carrier_score" => some "Check carrier reliability (e.g., \x27What\x27s the score for carrier X?\x27)"
  | "blockchain_audit" => some "Verify blockchain proofs (e.g., \x27Prove booking REF123\x27)"
  | _ => none

/-- `_handle_help(user_role, trace_id, decision_path)`. -/
def handle_help (user_role : String) (trace_id : String)
    (decision_path : List String) : Response :=
  let allowed_features :=
    ((ROLE_PERMISSIONS user_role).getD []).filter (fun f => f ≠ "help")
  let features_list := String.intercalate "\n"
    ((allowed_features.filter (fun f => (help_messages f).isSome)).map
      (fun f => "• " ++ ((help_messages f).getD f)))
  { message := some ("Hello! I\x27m your Smart Port AI assistant. Here\x27s what I can help you with:\n\n"
      ++ features_list ++ "\n\nJust ask me in natural language!")
    intent := some "help"
    data := some (.helpData user_role allowed_features)
    proofs := some { trace_id := some trace_id
                     decision_path := some (decision_path ++ ["help_generated"]) } }

/-- The fixed suggestion list of `_handle_unknown`. -/
def unknown_suggestions : List String :=
  ["Check booking status: \x27What\x27s the status of REF123?\x27",
   "Find available slots: \x27Is there availability tomorrow?\x27",
   "View passage history: \x27Show yesterday\x27s truck entries\x27"]

/-- `_handle_unknown(message, user_role, trace_id, decision_path)`. -/
def handle_unknown (trace_id : String) (decision_path : List String) :
    Response :=
  { message := some ("I\x27m not sure I understood your request. Here are some things you can ask me:\n\n"
      ++ String.intercalate "\n"
        ((unknown_suggestions.take 3).map (fun s => "• " ++ s)))
    intent := some "unknown"
    data := some (.unknownData unknown_suggestions)
    proofs := some { trace_id := some trace_id
                     decision_path := some (decision_path ++ ["unknown_intent"]) } }

/-- `Orchestrator.handle_message`.  The generated `uuid` trace id and the
agent invocation's outcome are explicit arguments; every other step of the
body is a total computation, so the enclosing `except` is unreachable and
the function is total — the embedding of "the core never raises past its own
boundary".  (`user_id` and the extra `context` only feed the agent's
execution context and cannot influence the response.) -/
def handle_message (trace_id : String) (behavior : AgentBehavior)
    (message : String) (history : List IntentDet.HMsg)
    (user_role0 : String) : Response :=
  let user_role := String.mk (upperS (stripS user_role0.data))
  let intent := detect_intent message history
  let entities := extract_entities message
  let decision_path := ["intent:" ++ intent,
                        "entities:" ++ toString entities.length]
  if intent = "help" then
    handle_help user_role trace_id decision_path
  else if intent = "unknown" then
    handle_unknown trace_id decision_path
  else if ¬ rbac_check intent user_role then
    { message := some ("Sorry, the \x27" ++ intent ++
        "\x27 feature is not available for your role (" ++ user_role ++ ").")
      intent := some "forbidden"
      data := some (.forbidden intent user_role
        ((ROLE_PERMISSIONS user_role).getD []))
      proofs := some { trace_id := some trace_id
                       decision_path := some (decision_path ++ ["rbac_denied"]) } }
  else
    match agent_registry intent with
    | none =>
      { message := some ("The \x27" ++ intent ++
          "\x27 feature is planned but not yet implemented. It will be available soon!")
        intent := some "not_implemented"
        data := some (.notImplemented intent entities
          "Please check back later or contact support.")
        proofs := some { trace_id := some trace_id
                         decision_path := some (decision_path ++
                           ["rbac_granted", "agent_not_implemented"]) } }
    | some agentName =>
      let res := execute_agent behavior
      let dp := decision_path ++ ["rbac_granted", "agent:" ++ agentName] ++
        res.2
      { res.1 with
        intent := if res.1.intent.isSome then res.1.intent else some intent
        proofs := some { (res.1.proofs.getD {}) with
          trace_id := some trace_id
          decision_path := some dp } }

end Orch

/-! ## Claims C3, C8, C10 (orchestrator dispatch) -/

namespace Orch

/-- Shared helper: every `handle_message` response carries a proofs object
stamped with the turn's trace id and a decision path that begins with
exactly `intent:<detected>` followed by `entities:<count>`. -/
theorem handle_message_shape (trace_id : String) (behavior : AgentBehavior)
    (message : String) (history : List IntentDet.HMsg) (role : String) :
    ∃ rest : List String,
      (handle_message trace_id behavior message history role).proofs =
        some { trace_id := some trace_id
               decision_path := some
                 (("intent:" ++ detect_intent message history) ::
                  ("entities:" ++ toString (extract_entities message).length)
                  :: rest) } := by
  simp only [handle_message]
  split_ifs
  all_goals first
    | exact ⟨["help_generated"], rfl⟩
    | exact ⟨["unknown_intent"], rfl⟩
    | exact ⟨["rbac_denied"], rfl⟩
    | (cases agent_registry (detect_intent message history) with
       | none => exact ⟨["rbac_granted", "agent_not_implemented"], rfl⟩
       | some a =>
         exact ⟨["rbac_granted", "agent:" ++ a] ++ (execute_agent behavior).2,
           rfl⟩)

end Orch

/-- C10: for every turn (the embedded pipeline body is total, so every turn
completes without an internal exception) and every agent behavior, the
returned `proofs.decision_path` begins with exactly
`intent:<detected intent>` followed by `entities:<number of extracted
entities>`, across all outcome kinds. -/
theorem Orch.c10_decision_path_prefix (trace_id : String)
    (behavior : Orch.AgentBehavior) (message : String)
    (history : List IntentDet.HMsg) (role : String) :
    ∃ rest : List String,
      (Orch.handle_message trace_id behavior message history role).proofs =
        some { trace_id := some trace_id
               decision_path := some
                 (("intent:" ++ Orch.detect_intent message history) ::
                  ("entities:" ++
                    toString (Orch.extract_entities message).length)
                  :: rest) } :=
  Orch.handle_message_shape trace_id behavior message history role

/-- C3 (amended): `handle_message` is a total function of its inputs and the
agent outcome (the embedding of "never raises past its boundary"), and its
response always carries `proofs.trace_id` and `proofs.decision_path`; the
response carries a `message` in every outcome — help, unknown, denied,
missing handler, handler exception, non-dict handler result — except when
the executed handler returns a dict that itself lacks a `message` key, which
`handle_message` passes through without adding one. -/
theorem Orch.c3_total_response_contract (trace_id : String)
    (behavior : Orch.AgentBehavior) (message : String)
    (history : List IntentDet.HMsg) (role : String) :
    (∃ p : Orch.Proofs,
      (Orch.handle_message trace_id behavior message history role).proofs =
        some p ∧ p.trace_id = some trace_id ∧ ∃ dp, p.decision_path = some dp) ∧
    ((Orch.handle_message trace_id behavior message history role).message =
        none →
      ∃ d : Orch.Response, behavior = .returns (.dict d) ∧ d.message = none) := by
  constructor
  · obtain ⟨rest, hp⟩ :=
      Orch.handle_message_shape trace_id behavior message history role
    exact ⟨_, hp, rfl, _, rfl⟩
  · intro hm
    simp only [Orch.handle_message] at hm
    split_ifs at hm
    all_goals first
      | (cases hreg : Orch.agent_registry (Orch.detect_intent message history)
          with
         | none => rw [hreg] at hm; simp at hm
         | some a =>
           rw [hreg] at hm
           rcases behavior with ex | _ | _ | ex | v
           · simp [Orch.execute_agent] at hm
           · simp [Orch.execute_agent] at hm
           · simp [Orch.execute_agent] at hm
           · simp [Orch.execute_agent] at hm
           · rcases v with d | s
             · exact ⟨d, rfl, by simpa [Orch.execute_agent] using hm⟩
             · simp [Orch.execute_agent] at hm)
      | simp [Orch.handle_help] at hm
      | simp [Orch.handle_unknown] at hm
      | simp at hm

/-- C3 counterexample: with the registered booking handler returning a
mapping without a `message` key, the response of `handle_message` contains
no `message` — the claim's "always contains a message" fails at this input
(the proofs object is still stamped as required). -/
theorem Orch.c3_counterexample :
    (Orch.handle_message "t" (.returns (.dict {})) "ref123" [] "ADMIN").message
      = none ∧
    (Orch.handle_message "t" (.returns (.dict {})) "ref123" [] "ADMIN").proofs
      = some { trace_id := some "t"
               decision_path := some ["intent:booking_status", "entities:1",
                 "rbac_granted", "agent:BookingAgent", "agent_instantiated",
                 "agent_executed"] } :=
  ⟨rfl, rfl⟩

/-- C8: whenever the detected intent is `passage_history` and the role is
ADMIN (which permits it), the absent registry entry yields the
not-implemented outcome as a success response: intent `not_implemented`,
`data.planned_intent = "passage_history"`, and a decision path ending in
`agent_not_implemented`. -/
theorem Orch.c8_admin_passage_history_not_implemented (trace_id : String)
    (behavior : Orch.AgentBehavior) (message : String)
    (history : List IntentDet.HMsg)
    (hint : Orch.detect_intent message history = "passage_history") :
    Orch.handle_message trace_id behavior message history "ADMIN" =
      { message := some "The \x27passage_history\x27 feature is planned but not yet implemented. It will be available soon!"
        intent := some "not_implemented"
        data := some (.notImplemented "passage_history"
          (Orch.extract_entities message)
          "Please check back later or contact support.")
        proofs := some { trace_id := some trace_id
                         decision_path := some
                           ["intent:passage_history",
                            "entities:" ++
                              toString (Orch.extract_entities message).length,
                            "rbac_granted", "agent_not_implemented"] } } := by
  simp only [Orch.handle_message, hint]
  rfl

/-- Witness for C8: the message `show yesterday's truck entries` detects
`passage_history`; with role ADMIN the turn ends in the planned-feature
response. -/
theorem Orch.c8_witness :
    Orch.handle_message "trace-1" (.returns (.dict {}))
      "show yesterday\x27s truck entries" [] "ADMIN" =
      { message := some "The \x27passage_history\x27 feature is planned but not yet implemented. It will be available soon!"
        intent := some "not_implemented"
        data := some (.notImplemented "passage_history"
          [("date_yesterday", Orch.EVal.b true)]
          "Please check back later or contact support.")
        proofs := some { trace_id := some "trace-1"
                         decision_path := some
                           ["intent:passage_history", "entities:1",
                            "rbac_granted", "agent_not_implemented"] } } := by
  exact Orch.c8_admin_passage_history_not_implemented "trace-1"
    (.returns (.dict {})) "show yesterday\x27s truck entries" [] (by decide)

/-- Witness for C3 at a concrete turn whose handler raises. -/
theorem Orch.c3_witness :
    (∃ p : Orch.Proofs,
      (Orch.handle_message "t0" (.callRaises "TimeoutError") "ref123" []
        "CARRIER").proofs = some p ∧ p.trace_id = some "t0" ∧
        ∃ dp, p.decision_path = some dp) ∧
    ((Orch.handle_message "t0" (.callRaises "TimeoutError") "ref123" []
        "CARRIER").message = none →
      ∃ d : Orch.Response,
        (.callRaises "TimeoutError" : Orch.AgentBehavior) =
          .returns (.dict d) ∧ d.message = none) :=
  Orch.c3_total_response_contract "t0" (.callRaises "TimeoutError")
    "ref123" [] "CARRIER"

/-- Witness for C10 at a concrete help turn. -/
theorem Orch.c10_witness :
    ∃ rest : List String,
      (Orch.handle_message "t1" (.returns (.nonDict "42")) "hello" []
        "OPERATOR").proofs =
        some { trace_id := some "t1"
               decision_path := some
                 (("intent:" ++ Orch.detect_intent "hello" []) ::
                  ("entities:" ++
                    toString (Orch.extract_entities "hello").length)
                  :: rest) } :=
  Orch.c10_decision_path_prefix "t1" (.returns (.nonDict "42")) "hello" []
    "OPERATOR"
